import Mathlib

/-!
Verification of the eCourts scraper repository (app.py catalog resolver and
scraper.py case locator) against its natural-language specification.

The Python sources are shallowly embedded: network and HTML-parsing effects
are abstracted into explicit upstream oracles (a function from URL to a
response value), and the parsed view of an HTML document is a structure
holding exactly the features the code inspects (select elements with their
attributes and options, the flattened page text, text nodes with their parent
text and following anchors, the first heading element, anchor hrefs).  The
control flow of each Python function is translated statement by statement;
try/except blocks around a fallible call become a match on the oracle result
whose failure constructor takes the except branch.
-/

/-! ### String utilities

The Python code uses str.upper/lower/strip/split and substring search, and a
handful of concrete regular expressions.  These are implemented here as
structurally recursive functions on character lists so that all proofs reduce
in the kernel.
-/

/-- Python whitespace class, ASCII part: space, tab, newline, carriage
return, vertical tab, form feed. -/
def is_space (c : Char) : Bool :=
  c = ' ' || c = '\t' || c = '\n' || c = '\r' || c.toNat = 11 || c.toNat = 12

/-- Python regex word class over ASCII: letters, digits, underscore. -/
def word_char (c : Char) : Bool :=
  c.isAlphanum || c = '_'

def upper_str (s : String) : String := String.mk (s.toList.map Char.toUpper)

def lower_str (s : String) : String := String.mk (s.toList.map Char.toLower)

/-- str.strip for ASCII whitespace. -/
def str_trim (s : String) : String :=
  String.mk (((s.toList.dropWhile is_space).reverse.dropWhile is_space).reverse)

/-- Index of the first occurrence of the pattern list in the haystack list. -/
def sub_idx (n : List Char) : List Char → Option Nat
  | [] => if n = [] then some 0 else none
  | c :: t => if n.isPrefixOf (c :: t) then some 0 else (sub_idx n t).map (· + 1)

/-- Case-sensitive substring test, Python `needle in hay`. -/
def contains_sub (hay needle : String) : Bool :=
  (sub_idx needle.toList hay.toList).isSome

/-- Case-insensitive substring test, Python `needle.upper() in hay.upper()`
and also a `re.search` for an escaped literal with `re.IGNORECASE`. -/
def contains_ci (hay needle : String) : Bool :=
  contains_sub (upper_str hay) (upper_str needle)

def has_pre (p s : String) : Bool := p.toList.isPrefixOf s.toList

/-- Test for hrefs matched by the pattern for a .pdf suffix, ignoring case. -/
def ends_pdf_ci (h : String) : Bool :=
  ".PDF".toList.isSuffixOf (h.toList.map Char.toUpper)

/-- Python str.split for a single newline separator (keeps empty pieces). -/
def split_nl_chars : List Char → List (List Char)
  | [] => [[]]
  | c :: t =>
    match split_nl_chars t with
    | [] => [[]]
    | l :: ls => if c = '\n' then [] :: l :: ls else (c :: l) :: ls

def split_nl (s : String) : List String :=
  (split_nl_chars s.toList).map String.mk

/-! ### A model of urllib.parse.urljoin

Only the href shapes the scraper actually produces are modelled: an absolute
URL (kept as is), a root-relative path (joined to the scheme and host of the
base), and a relative path (joined to the base directory). -/

def drop_after_last_slash (cs : List Char) : List Char :=
  (cs.reverse.dropWhile (fun c => c != '/')).reverse

def scheme_host (base : String) : String :=
  match sub_idx "://".toList base.toList with
  | none => base
  | some i =>
    let cs := base.toList
    String.mk (cs.take (i + 3) ++ (cs.drop (i + 3)).takeWhile (fun c => c != '/'))

def url_join (base href : String) : String :=
  if contains_sub href "://" then href
  else if has_pre "/" href then scheme_host base ++ href
  else String.mk (drop_after_last_slash base.toList) ++ href

/-! ### Calendar dates and strftime formats -/

structure Date where
  year : Nat
  month : Nat
  day : Nat
deriving DecidableEq

def pad2 (n : Nat) : String := if n < 10 then "0" ++ toString n else toString n

/-- strftime "%d-%m-%Y" (years below 1000 do not occur). -/
def fmt_ddmmyyyy (d : Date) : String :=
  pad2 d.day ++ "-" ++ pad2 d.month ++ "-" ++ toString d.year

/-- strftime "%Y-%m-%d". -/
def fmt_yyyymmdd (d : Date) : String :=
  toString d.year ++ "-" ++ pad2 d.month ++ "-" ++ pad2 d.day

/-- strftime "%d-%m-%y". -/
def fmt_ddmmyy (d : Date) : String :=
  pad2 d.day ++ "-" ++ pad2 d.month ++ "-" ++ pad2 (d.year % 100)

/-! ### Catalog resolver (app.py): data model

A catalog node is one of the dicts with keys "value" and "text" produced by
fetch_states, fetch_districts, fetch_court_complexes and fetch_courts. -/

structure CatalogNode where
  value : String
  text : String
deriving DecidableEq

/-- An option element inside a select: its value attribute (absent attribute
modelled as none, matching dict.get with a default) and its visible text. -/
structure OptionEl where
  value : Option String
  text : String
deriving DecidableEq

/-- A select element as BeautifulSoup sees it: the three attributes the code
matches against, plus the option elements in document order. -/
structure SelectEl where
  name_attr : Option String
  id_attr : Option String
  class_attr : Option String
  options : List OptionEl
deriving DecidableEq

/-- The parsed view of a catalog HTML page: its select elements in document
order (the only feature app.py inspects). -/
structure AppPage where
  selects : List SelectEl
deriving DecidableEq

/-- Result of session.get in app.py: a raised transport exception, or a
response with a status code and a parsed body. -/
inductive AppGetResult where
  | exn
  | resp (status : Nat) (page : AppPage)
deriving DecidableEq

/-- Body of an AJAX response as seen through response.json(): a parse failure
or a non-list value (both fall through identically), or a JSON list. -/
structure AjaxEntry where
  code : Option String
  value : Option String
  name : Option String
  text : Option String
deriving DecidableEq

inductive AjaxBody where
  | notAList
  | items (l : List AjaxEntry)
deriving DecidableEq

/-- Result of session.post in app.py. -/
inductive AppPostResult where
  | exn
  | resp (status : Nat) (body : AjaxBody)
deriving DecidableEq

/-- The network oracle for one app.py resolution call: what each POST (with
its form data) and each GET returns. -/
structure AppUpstream where
  post : String → List (String × String) → AppPostResult
  get : String → AppGetResult

/-! ### Catalog resolver (app.py): translated functions -/

def ECOURTS_BASE : String := "https://services.ecourts.gov.in/ecourtindia_v6/"

def ECOURTS_CAUSE_LIST_URL : String :=
  "https://services.ecourts.gov.in/ecourtindia_v6/?p=cause_list/"

/-- Python truthiness of dict.get for a possibly absent string value. -/
def truthy : Option String → Bool
  | none => false
  | some s => s != ""

/-- The list comprehension shared by the three AJAX branches:
keep entries whose "name" or "text" is truthy, and build
value = d.get("code", d.get("value", "")), text = d.get("name", d.get("text", "")). -/
def ajax_nodes (l : List AjaxEntry) : List CatalogNode :=
  l.filterMap fun e =>
    if truthy e.name || truthy e.text then
      some ⟨e.code.getD (e.value.getD ""), e.name.getD (e.text.getD "")⟩
    else none

/-- The AJAX loop of fetch_districts / fetch_court_complexes / fetch_courts:
POST each endpoint in order; on a 200 response whose body parses as a
non-empty JSON list, return the comprehension result; any exception, non-200
status, parse failure or empty list advances to the next endpoint. -/
def try_ajax (u : AppUpstream) (data : List (String × String)) :
    List String → Option (List CatalogNode)
  | [] => none
  | url :: rest =>
    match u.post url data with
    | .exn => try_ajax u data rest
    | .resp status body =>
      if status = 200 then
        match body with
        | .notAList => try_ajax u data rest
        | .items l => if l ≠ [] then some (ajax_nodes l) else try_ajax u data rest
      else try_ajax u data rest

/-- bs4 attribute matching for soup.find("select", attr=re.compile(pat, I)):
the element has the attribute and the pattern is found inside its value. -/
def opt_attr_match (a : Option String) (pat : String) : Bool :=
  match a with
  | none => false
  | some v => contains_ci v pat

def find_select_name (p : AppPage) (pat : String) : Option SelectEl :=
  p.selects.find? fun s => opt_attr_match s.name_attr pat

def find_select_id (p : AppPage) (pat : String) : Option SelectEl :=
  p.selects.find? fun s => opt_attr_match s.id_attr pat

def find_select_class (p : AppPage) (pat : String) : Option SelectEl :=
  p.selects.find? fun s => opt_attr_match s.class_attr pat

/-- The option-collection loop: for each option take value = get("value","").strip()
and text = get_text().strip(); keep it when both are truthy and the lowered
text is not one of the placeholder labels. -/
def extract_options (s : SelectEl) (placeholders : List String) : List CatalogNode :=
  s.options.filterMap fun o =>
    let v := str_trim (o.value.getD "")
    let t := str_trim o.text
    if v != "" && t != "" && !(placeholders.contains (lower_str t)) then
      some ⟨v, t⟩
    else none

def state_placeholders : List String := ["select state", "choose state", ""]

def get_fallback_states : List CatalogNode :=
  [⟨"MH", "Maharashtra"⟩, ⟨"DL", "Delhi"⟩, ⟨"KA", "Karnataka"⟩,
   ⟨"TN", "Tamil Nadu"⟩, ⟨"UP", "Uttar Pradesh"⟩, ⟨"WB", "West Bengal"⟩,
   ⟨"GJ", "Gujarat"⟩, ⟨"RJ", "Rajasthan"⟩, ⟨"AP", "Andhra Pradesh"⟩,
   ⟨"TS", "Telangana"⟩, ⟨"MP", "Madhya Pradesh"⟩, ⟨"OR", "Odisha"⟩,
   ⟨"KL", "Kerala"⟩, ⟨"AS", "Assam"⟩, ⟨"PB", "Punjab"⟩, ⟨"HR", "Haryana"⟩,
   ⟨"JH", "Jharkhand"⟩, ⟨"CG", "Chhattisgarh"⟩, ⟨"BR", "Bihar"⟩,
   ⟨"HP", "Himachal Pradesh"⟩]

/-- fetch_states: GET the cause-list page; on failure or non-200 return the
fallback states; otherwise locate the state dropdown by name, then id, then
class; collect its non-placeholder options; return the fallback when the
collection is empty. -/
def fetch_states (u : AppUpstream) : List CatalogNode :=
  match u.get ECOURTS_CAUSE_LIST_URL with
  | .exn => get_fallback_states
  | .resp status page =>
    if status != 200 then get_fallback_states
    else
      let sel :=
        match find_select_name page "state" with
        | some s => some s
        | none =>
          match find_select_id page "state" with
          | some s => some s
          | none => find_select_class page "state"
      let states :=
        match sel with
        | none => []
        | some s => extract_options s state_placeholders
      if states = [] then get_fallback_states else states

def get_fallback_districts (sc : String) : List CatalogNode :=
  if sc = "MH" then
    [⟨"MH01", "Mumbai City"⟩, ⟨"MH02", "Mumbai Suburban"⟩, ⟨"MH03", "Pune"⟩,
     ⟨"MH04", "Nagpur"⟩, ⟨"MH05", "Thane"⟩, ⟨"MH06", "Nashik"⟩,
     ⟨"MH07", "Aurangabad"⟩]
  else if sc = "DL" then
    [⟨"DL01", "Central Delhi"⟩, ⟨"DL02", "East Delhi"⟩, ⟨"DL03", "New Delhi"⟩,
     ⟨"DL04", "North Delhi"⟩, ⟨"DL05", "South Delhi"⟩, ⟨"DL06", "West Delhi"⟩]
  else if sc = "KA" then
    [⟨"KA01", "Bangalore Urban"⟩, ⟨"KA02", "Bangalore Rural"⟩,
     ⟨"KA03", "Mysore"⟩, ⟨"KA04", "Hubli-Dharwad"⟩, ⟨"KA05", "Mangalore"⟩]
  else
    [⟨sc ++ "01", sc ++ " District 1"⟩, ⟨sc ++ "02", sc ++ " District 2"⟩]

def district_ajax_urls : List String :=
  [ECOURTS_BASE ++ "ajax/get_districts.php",
   ECOURTS_BASE ++ "api/districts.php",
   ECOURTS_BASE ++ "get_districts.php"]

def district_placeholders : List String := ["select district", "choose district", ""]

/-- fetch_districts: try the AJAX endpoints; then parse the cause-list page
HTML (no status check in the source) looking for a district dropdown by name
then id; then fall back to the static table. -/
def fetch_districts (u : AppUpstream) (sc : String) : List CatalogNode :=
  match try_ajax u [("state_code", sc), ("state", sc)] district_ajax_urls with
  | some nodes => nodes
  | none =>
    let districts :=
      match u.get (ECOURTS_CAUSE_LIST_URL ++ "?state=" ++ sc) with
      | .exn => []
      | .resp _ page =>
        let sel :=
          match find_select_name page "district" with
          | some s => some s
          | none => find_select_id page "district"
        match sel with
        | none => []
        | some s => extract_options s district_placeholders
    if districts ≠ [] then districts else get_fallback_districts sc

def get_fallback_complexes (sc dc : String) : List CatalogNode :=
  let tbl : List CatalogNode :=
    if sc = "MH" then
      if dc = "MH01" then
        [⟨"MH01C01", "Mumbai City Civil Court"⟩, ⟨"MH01C02", "Mumbai Sessions Court"⟩,
         ⟨"MH01C03", "Mumbai High Court"⟩, ⟨"MH01C04", "Mumbai Magistrate Court"⟩]
      else if dc = "MH02" then
        [⟨"MH02C01", "Andheri Court Complex"⟩, ⟨"MH02C02", "Bandra Court Complex"⟩,
         ⟨"MH02C03", "Borivali Court Complex"⟩]
      else if dc = "MH03" then
        [⟨"MH03C01", "Pune Civil Court"⟩, ⟨"MH03C02", "Pune Sessions Court"⟩,
         ⟨"MH03C03", "Pune Magistrate Court"⟩]
      else []
    else if sc = "DL" then
      if dc = "DL01" then
        [⟨"DL01C01", "Tis Hazari Courts Complex"⟩, ⟨"DL01C02", "Delhi High Court"⟩,
         ⟨"DL01C03", "Patiala House Courts"⟩]
      else if dc = "DL02" then
        [⟨"DL02C01", "Karkardooma Courts Complex"⟩, ⟨"DL02C02", "Shahdara Court Complex"⟩]
      else []
    else if sc = "KA" then
      if dc = "KA01" then
        [⟨"KA01C01", "Bangalore City Civil Court"⟩, ⟨"KA01C02", "Bangalore Sessions Court"⟩,
         ⟨"KA01C03", "Karnataka High Court"⟩]
      else []
    else []
  if tbl = [] then
    [⟨sc ++ dc ++ "C01", sc ++ " " ++ dc ++ " Civil Court"⟩,
     ⟨sc ++ dc ++ "C02", sc ++ " " ++ dc ++ " Sessions Court"⟩,
     ⟨sc ++ dc ++ "C03", sc ++ " " ++ dc ++ " Magistrate Court"⟩]
  else tbl

def complex_ajax_urls : List String :=
  [ECOURTS_BASE ++ "ajax/get_court_complexes.php",
   ECOURTS_BASE ++ "ajax/get_complexes.php",
   ECOURTS_BASE ++ "api/complexes.php",
   ECOURTS_BASE ++ "get_complexes.php"]

def complex_placeholders : List String :=
  ["select complex", "choose complex", "select court", "choose court", ""]

/-- fetch_court_complexes: AJAX endpoints, then an HTML scrape whose dropdown
lookup tries complex by name, id, class, and finally court by name, then the
static fallback. -/
def fetch_court_complexes (u : AppUpstream) (sc dc : String) : List CatalogNode :=
  let data := [("state_code", sc), ("district_code", dc), ("state", sc), ("district", dc)]
  match try_ajax u data complex_ajax_urls with
  | some nodes => nodes
  | none =>
    let complexes :=
      match u.get (ECOURTS_CAUSE_LIST_URL ++ "?state=" ++ sc ++ "&district=" ++ dc) with
      | .exn => []
      | .resp _ page =>
        let sel :=
          match find_select_name page "complex" with
          | some s => some s
          | none =>
            match find_select_id page "complex" with
            | some s => some s
            | none =>
              match find_select_class page "complex" with
              | some s => some s
              | none => find_select_name page "court"
        match sel with
        | none => []
        | some s => extract_options s complex_placeholders
    if complexes ≠ [] then complexes else get_fallback_complexes sc dc

def get_fallback_courts (cc : String) : List CatalogNode :=
  [⟨cc ++ "CT01", "Court No. 1 / Judge 1"⟩, ⟨cc ++ "CT02", "Court No. 2 / Judge 2"⟩,
   ⟨cc ++ "CT03", "Court No. 3 / Judge 3"⟩, ⟨cc ++ "CT04", "Court No. 4 / Judge 4"⟩,
   ⟨cc ++ "CT05", "Court No. 5 / Judge 5"⟩]

def court_ajax_urls : List String :=
  [ECOURTS_BASE ++ "ajax/get_courts.php",
   ECOURTS_BASE ++ "ajax/get_judges.php",
   ECOURTS_BASE ++ "api/courts.php",
   ECOURTS_BASE ++ "get_courts.php"]

def court_placeholders : List String :=
  ["select court", "choose court", "select judge", "choose judge", ""]

/-- fetch_courts: AJAX endpoints, then an HTML scrape whose dropdown lookup
tries court by name, id, class, and finally judge by name, then the static
fallback (always five generated courts). -/
def fetch_courts (u : AppUpstream) (sc dc cc : String) : List CatalogNode :=
  let data := [("state_code", sc), ("district_code", dc), ("complex_code", cc),
               ("state", sc), ("district", dc), ("complex", cc)]
  match try_ajax u data court_ajax_urls with
  | some nodes => nodes
  | none =>
    let courts :=
      match u.get (ECOURTS_CAUSE_LIST_URL ++ "?state=" ++ sc ++ "&district=" ++ dc
                   ++ "&complex=" ++ cc) with
      | .exn => []
      | .resp _ page =>
        let sel :=
          match find_select_name page "court" with
          | some s => some s
          | none =>
            match find_select_id page "court" with
            | some s => some s
            | none =>
              match find_select_class page "court" with
              | some s => some s
              | none => find_select_name page "judge"
        match sel with
        | none => []
        | some s => extract_options s court_placeholders
    if courts ≠ [] then courts else get_fallback_courts cc

/-! ### Case locator (scraper.py): data model

The parsed view of a cause-list HTML document holds exactly what
search_ecourts_cause_list and search_cause_list_for_case inspect: the text
flattened with soup.get_text(separator=" ", strip=True); the text nodes (for
soup.find_all with a text pattern) with their parent element text and the
hrefs of the following anchor elements; the hrefs of all anchors in document
order; and the text of the first h1/h2/h3/strong element, if any.  The form
inspection block of search_ecourts_cause_list (date field, court dropdown,
CAPTCHA field) only prints diagnostics and never touches the result dict, so
it contributes nothing to the embedded result. -/

structure TextNode where
  text : String
  parent_text : String
  next_anchors : List String
deriving DecidableEq

structure SPage where
  text : String
  text_nodes : List TextNode
  anchor_hrefs : List String
  first_heading : Option String
deriving DecidableEq

/-- Result of session.get in scraper.py: a raised exception, or a response
with status code, final URL (response.url) and parsed document. -/
inductive SGetResult where
  | exn
  | resp (status : Nat) (resp_url : String) (page : SPage)
deriving DecidableEq

/-- Result of session.head: a raised exception, or a status code and the
Content-Type header (absent header modelled as the empty string, matching
headers.get("Content-Type", "")). -/
inductive HeadResult where
  | exn
  | resp (status : Nat) (content_type : String)
deriving DecidableEq

/-- The network oracle for one locate-case call: the single requests session
created by search_cause_list_for_case is used for every GET and HEAD. -/
structure ScraperUpstream where
  get : String → SGetResult
  head : String → HeadResult

/-- The result dict of search_cause_list_for_case / search_ecourts_cause_list:
keys found, serial_number, court_name, case_pdf, matched_line. -/
structure ScraperResults where
  found : Bool
  serial_number : Option String
  court_name : Option String
  case_pdf : Option String
  matched_line : Option String
deriving DecidableEq

def empty_results : ScraperResults := ⟨false, none, none, none, none⟩

def scraper_cause_list_url : String :=
  "https://services.ecourts.gov.in/ecourtindia_v6/?p=cause_list/index&app_token=7970d9011f0e6dc03b8549c7b2c9fae2c22b543bb6e33d6e43686becea3434e3"

def scraper_home_url : String :=
  "https://services.ecourts.gov.in/ecourtindia_v6/?p=home/index&app_token=2829a7e11a857da6b646dab029a6c38d1dfe692e9ee9e4d0945d2ba65e03def1"

/-! ### Case locator: regex heuristics from the source -/

/-- Strategy-1 serial extraction, the regex for a line-start integer followed
by a dot or whitespace with the digits as group 1 (search anchored at the
start of the string). -/
def serial_line_start (line : String) : Option String :=
  let cs := line.toList.dropWhile is_space
  let ds := cs.takeWhile Char.isDigit
  match ds, cs.drop ds.length with
  | [], _ => none
  | _ :: _, [] => none
  | _ :: _, c :: _ => if c = '.' || is_space c then some (String.mk ds) else none

/-- One attempt of the strategy-2 Serial regex at a fixed position: the word
Serial (ignoring case), then any run of colons and whitespace, then digits
with a word boundary after them. -/
def match_serial_at (cs : List Char) : Option String :=
  if "SERIAL".toList.isPrefixOf (cs.map Char.toUpper) then
    let rest := (cs.drop 6).dropWhile (fun c => c = ':' || is_space c)
    let ds := rest.takeWhile Char.isDigit
    match ds, rest.drop ds.length with
    | [], _ => none
    | _ :: _, [] => some (String.mk ds)
    | _ :: _, c :: _ => if word_char c then none else some (String.mk ds)
  else none

/-- re.search for the Serial pattern: scan left to right for the first
position with a word boundary before it where the pattern matches. -/
def serial_word_scan : List Char → Option Char → Option String
  | [], _ => none
  | c :: t, prev =>
    let bOk := match prev with | none => true | some p => !word_char p
    match (if bOk then match_serial_at (c :: t) else none) with
    | some s => some s
    | none => serial_word_scan t (some c)

/-- Strategy-2 fallback serial regex: a line-start integer of one to three
digits followed by a word boundary.  The greedy quantifier with the boundary
means the whole leading digit run must be at most three digits long. -/
def serial_leading13 (line : String) : Option String :=
  let cs := line.toList.dropWhile is_space
  let ds := cs.takeWhile Char.isDigit
  if 1 ≤ ds.length ∧ ds.length ≤ 3 then
    match cs.drop ds.length with
    | [] => some (String.mk ds)
    | c :: _ => if word_char c then none else some (String.mk ds)
  else none

/-- Strategy-2 serial extraction: the Serial pattern first, then the leading
integer pattern. -/
def serial_from_line2 (line : String) : Option String :=
  match serial_word_scan line.toList none with
  | some s => some s
  | none => serial_leading13 line

/-- One court-name pattern of strategy 1: the literal (matched ignoring case)
followed by everything up to the next comma or newline, stripped. -/
def court_pat (context pat : String) : Option String :=
  match sub_idx (upper_str pat).toList (upper_str context).toList with
  | none => none
  | some i =>
    some (str_trim (String.mk
      ((context.toList.drop i).takeWhile (fun c => !(c = ',' || c = '\n')))))

/-- Strategy-1 court-name extraction over the joined context window: the four
patterns are tried in the order they appear in the source. -/
def court_from_context (ctx : String) : Option String :=
  match court_pat ctx "District Court" with
  | some s => some s
  | none =>
    match court_pat ctx "High Court" with
    | some s => some s
    | none =>
      match court_pat ctx "Sessions Court" with
      | some s => some s
      | none => court_pat ctx "Magistrate Court"

/-- The strategy-1 line loop: find the first line containing the identifier
(ignoring case) and return it together with the joined context window
lines[max(0,i-5) : min(len,i+5)]. -/
def first_match_ctx (lines : List String) (ci : String) : Option (String × String) :=
  match lines.enum.find? (fun p => contains_ci p.2 ci) with
  | none => none
  | some (i, line) =>
    some (line, String.intercalate " " ((lines.take (min lines.length (i + 5))).drop (i - 5)))

/-! ### Case locator: translated functions -/

/-- search_ecourts_cause_list: GET the cause-list page (exception or non-200
returns the fresh result dict); when the identifier is non-empty and occurs
in the flattened page text, fill found, matched_line, serial_number and
court_name from the first matching line; afterwards, independently of the
text match, record the first .pdf anchor href (absolute hrefs kept, others
joined to response.url). -/
def search_ecourts_cause_list (u : ScraperUpstream) (case_identifier : String)
    (_d : Date) : ScraperResults :=
  let results := empty_results
  match u.get scraper_cause_list_url with
  | .exn => results
  | .resp status resp_url page =>
    if status != 200 then results
    else
      let r1 :=
        if case_identifier != "" && contains_ci page.text case_identifier then
          match first_match_ctx (split_nl page.text) case_identifier with
          | none => results
          | some (line, ctx) =>
            { results with
              found := true
              matched_line := some (str_trim line)
              serial_number := serial_line_start line
              court_name := court_from_context ctx }
        else results
      match page.anchor_hrefs.filter ends_pdf_ci with
      | [] => r1
      | href :: _ =>
        { r1 with
          case_pdf := some (if has_pre "http" href then href else url_join resp_url href) }

/-- The candidate URL list of strategy 2, in source order, with the home page
appended at the end. -/
def possible_urls (d : Date) : List String :=
  let ddmmyyyy := fmt_ddmmyyyy d
  let yyyymmdd := fmt_yyyymmdd d
  [scraper_cause_list_url,
   scraper_cause_list_url ++ "&date=" ++ ddmmyyyy,
   scraper_cause_list_url ++ "&date=" ++ yyyymmdd,
   ECOURTS_BASE ++ "causeList?date=" ++ ddmmyyyy,
   ECOURTS_BASE ++ "causeList?date=" ++ yyyymmdd,
   ECOURTS_BASE ++ "causelistpdf?date=" ++ ddmmyyyy,
   ECOURTS_BASE ++ "causelistpdf?date=" ++ yyyymmdd,
   scraper_home_url]

/-- One iteration of the strategy-2 URL loop: any exception or non-200 status
advances to the next URL; when the identifier is non-empty and occurs in the
flattened text, take the first text node containing it, extract serial and
court (the first h1/h2/h3/strong of the whole document), and the first
.pdf href among the next six anchors after the parent. -/
def try_url (u : ScraperUpstream) (ci url : String) : Option ScraperResults :=
  match u.get url with
  | .exn => none
  | .resp status resp_url page =>
    if status != 200 then none
    else if ci != "" && contains_ci page.text ci then
      match page.text_nodes.find? (fun tn => contains_ci tn.text ci) with
      | none => none
      | some tn =>
        let line := tn.parent_text
        some ⟨true, serial_from_line2 line, page.first_heading,
          ((tn.next_anchors.take 6).find? ends_pdf_ci).map (url_join resp_url),
          some line⟩
    else none

def try_urls (u : ScraperUpstream) (ci : String) : List String → Option ScraperResults
  | [] => none
  | url :: rest =>
    match try_url u ci url with
    | some r => some r
    | none => try_urls u ci rest

def pdf_name_candidates (d : Date) : List String :=
  [ "causelist_" ++ fmt_yyyymmdd d ++ ".pdf",
    "CauseList_" ++ fmt_yyyymmdd d ++ ".pdf",
    "CauseList_" ++ fmt_ddmmyyyy d ++ ".pdf",
    "causelist_" ++ fmt_ddmmyy d ++ ".pdf",
    "daily_causelist_" ++ fmt_ddmmyyyy d ++ ".pdf"]

def base_attempts : List String :=
  [ECOURTS_BASE ++ "static_causes/",
   ECOURTS_BASE ++ "causelists/",
   ECOURTS_BASE ++ "uploads/causelists/",
   ECOURTS_BASE ++ "pdfs/",
   ECOURTS_BASE ++ "documents/"]

/-- The strategy-3 candidates: outer loop over base directories, inner loop
over filename conventions. -/
def pdf_candidates (d : Date) : List String :=
  base_attempts.foldr (fun b acc => (pdf_name_candidates d).map (fun n => b ++ n) ++ acc) []

/-- The strategy-3 HEAD loop: the first candidate answering 200 with a
Content-Type containing application/pdf wins; exceptions and other responses
advance to the next candidate. -/
def try_pdf_heads (u : ScraperUpstream) : List String → Option String
  | [] => none
  | url :: rest =>
    match u.head url with
    | .exn => try_pdf_heads u rest
    | .resp status ctype =>
      if status == 200 && contains_sub ctype "application/pdf" then some url
      else try_pdf_heads u rest

/-- search_cause_list_for_case: strategy 1 (search_ecourts_cause_list) is
returned only when it reports found; otherwise its result, including any
case_pdf it discovered, is discarded and strategy 2 runs over the candidate
URLs; then strategy 3 probes PDF name conventions, updating only found (to
false) and case_pdf on the fresh result dict; otherwise the fresh result
dict is returned. -/
def search_cause_list_for_case (u : ScraperUpstream) (case_identifier : String)
    (d : Date) : ScraperResults :=
  let results := empty_results
  let ecourts_results := search_ecourts_cause_list u case_identifier d
  if ecourts_results.found then ecourts_results
  else
    match try_urls u case_identifier (possible_urls d) with
    | some r => r
    | none =>
      match try_pdf_heads u (pdf_candidates d) with
      | some pdf_url => { results with found := false, case_pdf := some pdf_url }
      | none => results

/-! ### Concrete upstream fixtures used by witnesses and counterexamples -/

/-- Total outage: every POST, GET and HEAD raises. -/
def down_app : AppUpstream := ⟨fun _ _ => .exn, fun _ => .exn⟩

def down_scraper : ScraperUpstream := ⟨fun _ => .exn, fun _ => .exn⟩

def d_ex : Date := ⟨2024, 10, 20⟩

/-- An upstream whose first district AJAX endpoint answers 200 with the JSON
list containing one empty object. -/
def c1_bad_app : AppUpstream :=
  ⟨fun _ _ => .resp 200 (.items [⟨none, none, none, none⟩]), fun _ => .exn⟩

/-- A select matched by its name attribute whose only option is a
placeholder. -/
def sel_a : SelectEl := ⟨some "state_code", none, none, [⟨some "0", "Select State"⟩]⟩

/-- A later select matched by its id attribute with a real option. -/
def sel_b : SelectEl := ⟨none, some "state_list", none, [⟨some "KA9", "RealState"⟩]⟩

def page6 : AppPage := ⟨[sel_a, sel_b]⟩

def c6_up : AppUpstream := ⟨fun _ _ => .exn, fun _ => .resp 200 page6⟩

/-- The cause-list page of the specification example: its flattened text
contains the line with serial 42 and the demo identifier. -/
def page42 : SPage :=
  ⟨"Header\n42. DEMO123456789012 - Sample vs Demo\nFooter", [], [], none⟩

def cu42 : ScraperUpstream :=
  ⟨fun _ => .resp 200 "https://services.ecourts.gov.in/ecourtindia_v6/x" page42,
   fun _ => .exn⟩

/-- A cause-list page whose matching line carries the serial only in the
Serial: form, with no leading integer. -/
def page_serial : SPage := ⟨"Serial: 7 DEMO123456789012 listed in court", [], [], none⟩

def cu_serial : ScraperUpstream := ⟨fun _ => .resp 200 "u" page_serial, fun _ => .exn⟩

/-- A cause-list form page carrying a PDF link but not the identifier; every
other request raises. -/
def page_c4 : SPage := ⟨"no identifier here", [], ["https://ex.org/list.pdf"], none⟩

def cu_c4 : ScraperUpstream :=
  ⟨fun url => if url == scraper_cause_list_url then .resp 200 "u" page_c4 else .exn,
   fun _ => .exn⟩

/-- A page reachable only through the second strategy-2 candidate URL: the
matching line itself names a District Court, and the first heading of the
document is an unrelated office name. -/
def page_c8 : SPage :=
  ⟨"District Court Pune\n7 DEMOX1 vs State",
   [⟨"DEMOX1", "7 DEMOX1 vs State District Court Pune", []⟩],
   [], some "Registrar Office"⟩

def cu_c8 : ScraperUpstream :=
  ⟨fun url => if url == scraper_cause_list_url then .exn else .resp 200 "u" page_c8,
   fun _ => .exn⟩

/-- A form page where the strategy-1 context window names a court while the
document also has a heading; strategy 1 never consults headings. -/
def page_c8b : SPage :=
  ⟨"District Court Karnataka, Bench II\nDEMOX2 case listed\nother matters",
   [], [], some "Should Not Matter"⟩

def cu_c8b : ScraperUpstream := ⟨fun _ => .resp 200 "u" page_c8b, fun _ => .exn⟩

/-! ### Helper lemmas -/

theorem ite_nonempty {α : Type} [DecidableEq α] (tbl gen : List α) (h : gen ≠ []) :
    (if tbl = [] then gen else tbl) ≠ [] := by
  split
  · exact h
  · next h2 => exact h2

theorem get_fallback_states_ne : get_fallback_states ≠ [] := by
  simp [get_fallback_states]

theorem get_fallback_districts_ne (sc : String) : get_fallback_districts sc ≠ [] := by
  unfold get_fallback_districts
  split
  · exact List.cons_ne_nil _ _
  split
  · exact List.cons_ne_nil _ _
  split
  · exact List.cons_ne_nil _ _
  · exact List.cons_ne_nil _ _

theorem get_fallback_complexes_ne (sc dc : String) : get_fallback_complexes sc dc ≠ [] := by
  unfold get_fallback_complexes
  exact ite_nonempty _ _ (List.cons_ne_nil _ _)

theorem get_fallback_courts_ne (cc : String) : get_fallback_courts cc ≠ [] := by
  exact List.cons_ne_nil _ _

/-! ### C1: totality of catalog resolution -/

/-- C1 counterexample: the claim that every fetch function returns a
non-empty list for every parent-code input is false: when the first AJAX
endpoint answers 200 with the JSON list containing one empty object,
fetch_districts returns the filtered comprehension, which is empty, without
ever reaching the static fallback. -/
theorem c1_districts_can_be_empty : fetch_districts c1_bad_app "MH" = [] := rfl

/-- C1 (amended): whenever every network strategy fails (every POST and GET
raises), all four catalog resolution functions reach their static fallback
branch and return a non-empty list, for every parent-code input. -/
theorem c1_fallback_total (u : AppUpstream)
    (hp : ∀ url data, u.post url data = .exn)
    (hg : ∀ url, u.get url = .exn) (sc dc cc : String) :
    fetch_states u ≠ [] ∧ fetch_districts u sc ≠ [] ∧
    fetch_court_complexes u sc dc ≠ [] ∧ fetch_courts u sc dc cc ≠ [] := by
  refine ⟨?_, ?_, ?_, ?_⟩
  · simp only [fetch_states, hg]
    exact get_fallback_states_ne
  · simp only [fetch_districts, district_ajax_urls, try_ajax, hp, hg]
    simpa using get_fallback_districts_ne sc
  · simp only [fetch_court_complexes, complex_ajax_urls, try_ajax, hp, hg]
    simpa using get_fallback_complexes_ne sc dc
  · simp only [fetch_courts, court_ajax_urls, try_ajax, hp, hg]
    simpa using get_fallback_courts_ne cc

/-- C1 witness: the amended theorem applied to the total-outage upstream and
the unknown codes ZZ / ZZ09 / ZZ09C01. -/
theorem c1_fallback_total_down :
    fetch_states down_app ≠ [] ∧ fetch_districts down_app "ZZ" ≠ [] ∧
    fetch_court_complexes down_app "ZZ" "ZZ09" ≠ [] ∧
    fetch_courts down_app "ZZ" "ZZ09" "ZZ09C01" ≠ [] :=
  c1_fallback_total down_app (fun _ _ => rfl) (fun _ => rfl) "ZZ" "ZZ09" "ZZ09C01"

/-! ### C2: the locator never raises and is total under outage -/

/-- C2: for every case identifier and date, under total upstream outage
(every GET and HEAD of the single session raises), search_cause_list_for_case
returns the structured result dict with found = false and every other field
null; every transport failure is swallowed at the strategy boundary, so the
embedded function is total. -/
theorem c2_total_outage (u : ScraperUpstream)
    (hg : ∀ url, u.get url = .exn) (hh : ∀ url, u.head url = .exn)
    (ci : String) (d : Date) :
    search_cause_list_for_case u ci d = empty_results := by
  obtain ⟨g, h⟩ := u
  have eg : g = fun _ => SGetResult.exn := funext hg
  have eh : h = fun _ => HeadResult.exn := funext hh
  subst eg
  subst eh
  rfl

/-- C2 witness: the outage theorem applied to the all-raising upstream at a
concrete query. -/
theorem c2_total_outage_down :
    search_cause_list_for_case down_scraper "MHMU01234567890123" d_ex = empty_results :=
  c2_total_outage down_scraper (fun _ => rfl) (fun _ => rfl) "MHMU01234567890123" d_ex

/-! ### C5: shape of the synthesized fallback nodes -/

/-- C5 counterexample: the claim that every hierarchy level synthesizes
exactly two generic placeholder nodes on a static-table miss is false: the
court-complex resolver synthesizes three nodes for the unknown pair
ZZ / ZZ09 under total outage. -/
theorem c5_complexes_not_two :
    (fetch_court_complexes down_app "ZZ" "ZZ09").length ≠ 2 := by decide

/-- C5 (amended): on a static-table miss under total outage, the district
level synthesizes exactly the two generic nodes ZZ01 and ZZ02 (as the claim
states for resolve_level(District, ZZ)), while the complex level synthesizes
three nodes and the court level five. -/
theorem c5_fallback_shapes :
    fetch_districts down_app "ZZ" =
      [⟨"ZZ01", "ZZ District 1"⟩, ⟨"ZZ02", "ZZ District 2"⟩] ∧
    (fetch_court_complexes down_app "ZZ" "ZZ09").length = 3 ∧
    (fetch_courts down_app "ZZ" "ZZ09" "ZZ09C01").length = 5 :=
  ⟨rfl, rfl, rfl⟩

/-! ### C6: the dropdown lookup chain -/

/-- C6 counterexample: the claim that later attributes are still tried when
the first matching select yields only placeholder options is false: on a page
whose name-matched select has only the placeholder option and whose
id-matched select has a real option, fetch_states falls back to the static
state list instead of returning the real option. -/
theorem c6_placeholder_not_retried :
    fetch_states c6_up = get_fallback_states ∧
    fetch_states c6_up ≠ [⟨"KA9", "RealState"⟩] := ⟨rfl, by decide⟩

/-- C6 (amended): the lookup tries name, then id, then class only to locate a
single select element; option filtering applies to that element alone, and
when its filtered option list is empty the function falls back to the static
list rather than trying the remaining attributes. -/
theorem c6_first_attr_wins (u : AppUpstream) (page : AppPage) (s : SelectEl)
    (hget : u.get ECOURTS_CAUSE_LIST_URL = .resp 200 page)
    (hsel : find_select_name page "state" = some s) :
    fetch_states u =
      (if extract_options s state_placeholders = [] then get_fallback_states
       else extract_options s state_placeholders) := by
  unfold fetch_states
  rw [hget]
  simp [hsel]

/-- C6 witness: the amended theorem applied to the placeholder-page upstream,
where both hypotheses hold by computation. -/
theorem c6_first_attr_wins_up :
    fetch_states c6_up =
      (if extract_options sel_a state_placeholders = [] then get_fallback_states
       else extract_options sel_a state_placeholders) :=
  c6_first_attr_wins c6_up page6 sel_a rfl rfl

/-! ### C7: serial-number extraction -/

/-- C7 counterexample: the claim that the Serial pattern is applied first
whenever a text match is found is false: on a form page whose matching line
is in the form Serial: 7 with no leading integer, the form-page match reports
found with a null serial_number, because search_ecourts_cause_list only
applies the line-start integer pattern. -/
theorem c7_serial_pattern_missing :
    (search_cause_list_for_case cu_serial "DEMO123456789012" d_ex).found = true ∧
    (search_cause_list_for_case cu_serial "DEMO123456789012" d_ex).serial_number = none :=
  ⟨rfl, rfl⟩

/-- C7 (amended): the form-page match extracts the serial only via the
line-start integer pattern, which yields found = true with serial 42 on the
specification example line; the ordered pair of patterns (Serial first, then
a leading one-to-three digit integer) is applied only by the TEXT_SEARCH
strategy, whose extractor prefers the Serial pattern when both occur. -/
theorem c7_serial_extraction :
    search_cause_list_for_case cu42 "DEMO123456789012" d_ex =
      ⟨true, some "42", none, none, some "42. DEMO123456789012 - Sample vs Demo"⟩ ∧
    serial_from_line2 "12 Serial: 99 X" = some "99" :=
  ⟨rfl, rfl⟩

/-! ### C8: court-name extraction -/

/-- C8 counterexample: the claim that TEXT_SEARCH extracts court_name via the
window regex first is false: on a strategy-2 match whose matched line itself
names District Court Pune (so any window around the match contains it), the
result carries the text of the first heading of the document instead, while
the window extractor would have produced District Court Pune. -/
theorem c8_heading_not_window :
    (search_cause_list_for_case cu_c8 "DEMOX1" d_ex).found = true ∧
    (search_cause_list_for_case cu_c8 "DEMOX1" d_ex).matched_line =
      some "7 DEMOX1 vs State District Court Pune" ∧
    (search_cause_list_for_case cu_c8 "DEMOX1" d_ex).court_name =
      some "Registrar Office" ∧
    court_from_context "7 DEMOX1 vs State District Court Pune" =
      some "District Court Pune" :=
  ⟨rfl, rfl, rfl, rfl⟩

/-- C8 (amended): the window regex over the joined five-line context (with no
heading fallback) belongs to the form-page strategy, which extracts District
Court Karnataka here while ignoring the document heading; the TEXT_SEARCH
strategy takes the first h1/h2/h3/strong text of the whole document. -/
theorem c8_court_name_sources :
    (search_cause_list_for_case cu_c8b "DEMOX2" d_ex).found = true ∧
    (search_cause_list_for_case cu_c8b "DEMOX2" d_ex).court_name =
      some "District Court Karnataka" ∧
    (search_cause_list_for_case cu_c8 "DEMOX1" d_ex).court_name =
      some "Registrar Office" :=
  ⟨rfl, rfl, rfl⟩

/-! ### C9: determinism -/

/-- C9: search_cause_list_for_case is deterministic: its result depends only
on the case identifier, the date, and the responses of the session upstream;
two calls against upstreams that answer every GET and HEAD identically
produce identical results, with no hidden randomness or time dependence. -/
theorem c9_deterministic (u1 u2 : ScraperUpstream) (ci : String) (d : Date)
    (hg : ∀ url, u1.get url = u2.get url)
    (hh : ∀ url, u1.head url = u2.head url) :
    search_cause_list_for_case u1 ci d = search_cause_list_for_case u2 ci d := by
  obtain ⟨g1, h1⟩ := u1
  obtain ⟨g2, h2⟩ := u2
  have eg : g1 = g2 := funext hg
  have eh : h1 = h2 := funext hh
  subst eg
  subst eh
  rfl

/-- C9 witness: the determinism theorem applied to the total-outage upstream
against itself at a concrete query. -/
theorem c9_deterministic_down :
    search_cause_list_for_case down_scraper "MHMU01234567890123" d_ex =
      search_cause_list_for_case down_scraper "MHMU01234567890123" d_ex :=
  c9_deterministic down_scraper down_scraper "MHMU01234567890123" d_ex
    (fun _ => rfl) (fun _ => rfl)

/-! ### C3: found implies a matched excerpt -/

theorem ecourts_shape (u : ScraperUpstream) (ci : String) (d : Date) :
    (search_ecourts_cause_list u ci d).found = false ∨
    (search_ecourts_cause_list u ci d).matched_line ≠ none := by
  unfold search_ecourts_cause_list
  split
  · exact Or.inl rfl
  · split
    · exact Or.inl rfl
    · dsimp only
      split <;> split <;>
        first
          | exact Or.inl rfl
          | (split <;> first | exact Or.inl rfl | simp [empty_results])

theorem try_url_shape (u : ScraperUpstream) (ci url : String) (r : ScraperResults)
    (h : try_url u ci url = some r) : r.found = true ∧ r.matched_line ≠ none := by
  unfold try_url at h
  split at h
  · exact absurd h (by simp)
  · split at h
    · exact absurd h (by simp)
    · split at h
      · split at h
        · exact absurd h (by simp)
        · cases h
          simp
      · exact absurd h (by simp)

theorem try_urls_shape (u : ScraperUpstream) (ci : String) :
    ∀ (ls : List String) (r : ScraperResults), try_urls u ci ls = some r →
      r.found = true ∧ r.matched_line ≠ none := by
  intro ls
  induction ls with
  | nil => intro r h; exact absurd h (by simp [try_urls])
  | cons url rest ih =>
    intro r h
    rcases htu : try_url u ci url with _ | r2
    · unfold try_urls at h
      rw [htu] at h
      exact ih r h
    · unfold try_urls at h
      rw [htu] at h
      have h2 : some r2 = some r := h
      cases h2
      exact try_url_shape u ci url r htu

/-- C3: for every upstream, case identifier and date, if the result of
search_cause_list_for_case reports found = true then its matched_line field
is non-null: every code path that sets found also records the matching
line text. -/
theorem c3_found_has_excerpt (u : ScraperUpstream) (ci : String) (d : Date)
    (h : (search_cause_list_for_case u ci d).found = true) :
    (search_cause_list_for_case u ci d).matched_line ≠ none := by
  simp only [search_cause_list_for_case] at h ⊢
  by_cases he : (search_ecourts_cause_list u ci d).found = true
  · rw [if_pos he] at h ⊢
    rcases ecourts_shape u ci d with hf | hm
    · rw [he] at hf; exact absurd hf (by simp)
    · exact hm
  · rw [if_neg he] at h ⊢
    rcases ht : try_urls u ci (possible_urls d) with _ | r
    · rw [ht] at h
      dsimp only at h
      split at h <;> simp [empty_results] at h
    · exact (try_urls_shape u ci (possible_urls d) r ht).2

/-- C3 witness: the invariant applied to the specification-example upstream,
where found = true holds by computation. -/
theorem c3_found_has_excerpt_42 :
    (search_cause_list_for_case cu42 "DEMO123456789012" d_ex).matched_line ≠ none :=
  c3_found_has_excerpt cu42 "DEMO123456789012" d_ex rfl

/-! ### C4: short-circuiting of the strategy chain -/

/-- C4 counterexample: the claim that a usable document_link alone terminates
the chain and is returned is false: on an upstream where the form page
carries a PDF link but no text match, search_ecourts_cause_list reports
found = false with the link, search_cause_list_for_case goes on to the later
strategies, and the link is discarded (the final result carries none). -/
theorem c4_doc_link_discarded :
    (search_ecourts_cause_list cu_c4 "DEMOX4" d_ex).found = false ∧
    (search_ecourts_cause_list cu_c4 "DEMOX4" d_ex).case_pdf =
      some "https://ex.org/list.pdf" ∧
    (search_cause_list_for_case cu_c4 "DEMOX4" d_ex).case_pdf = none :=
  ⟨rfl, rfl, rfl⟩

/-- C4 (amended): the chain short-circuits on found = true alone: whenever
the form-page strategy reports found, its result (document link included) is
returned unchanged and the TEXT_SEARCH and PDF_NAME_GUESS strategies have no
influence on the result; a document link with found = false does not stop
the chain and is discarded. -/
theorem c4_found_short_circuits (u : ScraperUpstream) (ci : String) (d : Date)
    (h : (search_ecourts_cause_list u ci d).found = true) :
    search_cause_list_for_case u ci d = search_ecourts_cause_list u ci d := by
  simp [search_cause_list_for_case, h]

/-- C4 witness: the short-circuit theorem applied to the
specification-example upstream, where the form-page strategy finds the
identifier. -/
theorem c4_found_short_circuits_42 :
    search_cause_list_for_case cu42 "DEMO123456789012" d_ex =
      search_ecourts_cause_list cu42 "DEMO123456789012" d_ex :=
  c4_found_short_circuits cu42 "DEMO123456789012" d_ex rfl

/-! ### C10: empty identifier never matches -/

theorem ecourts_empty_id (u : ScraperUpstream) (d : Date) :
    (search_ecourts_cause_list u "" d).found = false ∧
    (search_ecourts_cause_list u "" d).serial_number = none ∧
    (search_ecourts_cause_list u "" d).court_name = none ∧
    (search_ecourts_cause_list u "" d).matched_line = none := by
  unfold search_ecourts_cause_list
  split
  · exact ⟨rfl, rfl, rfl, rfl⟩
  · split
    · exact ⟨rfl, rfl, rfl, rfl⟩
    · dsimp only
      split <;> simp [empty_results]

theorem try_url_empty_id (u : ScraperUpstream) (url : String) :
    try_url u "" url = none := by
  unfold try_url
  split
  · rfl
  · split
    · rfl
    · split
      · next h => simp at h
      · rfl

theorem try_urls_empty_id (u : ScraperUpstream) :
    ∀ ls, try_urls u "" ls = none := by
  intro ls
  induction ls with
  | nil => rfl
  | cons url rest ih =>
    unfold try_urls
    rw [try_url_empty_id u url]
    exact ih

/-- C10: for every upstream and date, the cause-list-only mode (empty case
identifier, as used by the CLI causelist flag and the causelist endpoint)
never reports found = true: both text-search branches are guarded by the
identifier being non-empty, so only the case_pdf field can be populated
while found, serial_number, court_name and matched_line stay at their
defaults. -/
theorem c10_empty_identifier (u : ScraperUpstream) (d : Date) :
    (search_cause_list_for_case u "" d).found = false ∧
    (search_cause_list_for_case u "" d).serial_number = none ∧
    (search_cause_list_for_case u "" d).court_name = none ∧
    (search_cause_list_for_case u "" d).matched_line = none := by
  have he := ecourts_empty_id u d
  simp only [search_cause_list_for_case]
  rw [he.1]
  simp only [Bool.false_eq_true, if_false]
  rw [try_urls_empty_id u (possible_urls d)]
  rcases hp : try_pdf_heads u (pdf_candidates d) with _ | pdfu <;>
    simp [hp, empty_results]
